import Mathlib

/-!
Verification of the sharded request router in `sharding-poc/main.go`.

The Go handlers are shallowly embedded as pure Lean functions. External
collaborators (the per-shard PostgreSQL backends, reached through
`database/sql`) are abstracted as environments: a function from shard
position to that shard's query outcome. A Go runtime panic (slice index
out of range) is modelled as `none` / an explicit panic outcome, since it
aborts the handler without producing any of its normal responses.

Go's `%` on `int` is the truncated remainder (sign of the dividend), which
is Lean's `Int.tmod`.
-/

namespace ShardingPOC

/-- A user record, per the `User` struct in `main.go` (and the `users`
table of `init_db.sql`). -/
structure User where
  user_id : Int
  name : String
  email : String
  created_at : String
deriving DecidableEq, Repr

/-- `main.go` builds `shards: []*sql.DB{shard0, shard1}`: the process runs
with exactly two shards. -/
def numShards : Nat := 2

/-- The index computation of `getShardForUser` (line 59):
`userID % len(sm.shards)`, with Go's truncated remainder (`Int.tmod`). -/
def getShardIndex (n : Nat) (userID : Int) : Int :=
  Int.tmod userID (n : Int)

/-- The shard lookup `sm.shards[shardIndex]` (line 61): in Go, indexing a
slice outside `0 ≤ i < len` panics, modelled as `none`. On success it
returns the routed shard position. -/
def getShardForUser (n : Nat) (userID : Int) : Option Nat :=
  let i := getShardIndex n userID
  if 0 ≤ i ∧ i < (n : Int) then some i.toNat else none

/-- Outcome of one shard's point query
`QueryRow(query, userID).Scan(...)` in `getUser` (line 78):
`sql.ErrNoRows`, some other error, or a row. -/
inductive RowResult where
  | noRows : RowResult
  | err : String → RowResult
  | found : User → RowResult
deriving DecidableEq, Repr

/-- Outcome of one shard's
`QueryRow(INSERT ... RETURNING created_at).Scan(&user.CreatedAt)` in
`createUser` (line 106): an error, or the server-assigned timestamp. -/
inductive InsertResult where
  | err : String → InsertResult
  | ok : String → InsertResult
deriving DecidableEq, Repr

/-- Caller-visible HTTP response, one constructor per `c.JSON(...)` call
in `main.go`. Each constructor carries exactly the fields the Go code
puts in the JSON body. -/
inductive Response where
  | badRequest (msg : String)
  | notFound (msg : String)
  | internalError (msg : String)
  | okUser (user : User) (shard_used : Int) (routing : String)
  | created (user : User) (shard_used : Int) (routing : String)
  | okList (users : List User) (count : Nat) (routing : String)
deriving DecidableEq, Repr

/-- HTTP status code of each response, per the `http.Status*` constant
used at the corresponding `c.JSON` call. -/
def Response.status : Response → Nat
  | .badRequest _ => 400
  | .notFound _ => 404
  | .internalError _ => 500
  | .okUser _ _ _ => 200
  | .created _ _ _ => 201
  | .okList _ _ _ => 200

/-- `getUser` (lines 74-92), after the userID has been parsed: route with
`getShardForUser`, query that single shard (`env` maps each shard
position to its point-query outcome), and respond as lines 80-92 do.
`none` is the Go panic from an out-of-range shard index. -/
def getUserCore (n : Nat) (userID : Int) (env : Nat → RowResult) :
    Option Response :=
  match getShardForUser n userID with
  | none => none
  | some i =>
    match env i with
    | .noRows => some (.notFound "User not found")
    | .err e => some (.internalError e)
    | .found u =>
        some (.okUser u (getShardIndex n userID) "application_layer")

/-- Model of Go `strconv.Atoi` for the relevant inputs: an optional single
sign followed by one or more decimal digits parses to the signed value;
anything else errors (`none`). (Go additionally errors on values outside
the platform int range; those inputs also take `getUser`'s error branch,
so this model is conservative only about which huge numerals parse.) -/
def digitsVal (cs : List Char) : Option Nat :=
  cs.foldl
    (fun acc c =>
      match acc with
      | none => none
      | some v => if c.isDigit then some (v * 10 + (c.toNat - 48)) else none)
    (some 0)

/-- See `digitsVal`: full `strconv.Atoi` model. -/
def atoi (s : String) : Option Int :=
  match s.toList with
  | [] => none
  | '-' :: rest =>
      if rest = [] then none
      else (digitsVal rest).map (fun v => -(v : Int))
  | '+' :: rest =>
      if rest = [] then none
      else (digitsVal rest).map (fun v => (v : Int))
  | cs => (digitsVal cs).map (fun v => (v : Int))

/-- The full `getUser` handler (lines 65-93): parse the `userID` path
parameter with `strconv.Atoi`; on parse failure respond 400
`"Invalid user ID"` and return, before any routing or shard access. -/
def getUser (n : Nat) (userIDStr : String) (env : Nat → RowResult) :
    Option Response :=
  match atoi userIDStr with
  | none => some (.badRequest "Invalid user ID")
  | some userID => getUserCore n userID env

/-- `createUser` (lines 103-117), after JSON binding: route by
`user.UserID`, insert on that single shard, and on success respond 201
with the user enriched by the returned `created_at` (line 106 scans it
into the user before line 113 serialises it). -/
def createUserCore (n : Nat) (user : User) (env : Nat → InsertResult) :
    Option Response :=
  match getShardForUser n user.user_id with
  | none => none
  | some i =>
    match env i with
    | .err e => some (.internalError e)
    | .ok ts =>
        some (.created { user with created_at := ts }
          (getShardIndex n user.user_id) "application_layer")

/-- One row produced by a shard's `SELECT ... ORDER BY user_id` in
`listAllUsers` (line 133): the row's `Scan` (line 135) may fail or yield
a user. -/
inductive RowScan where
  | scanErr (msg : String)
  | ok (u : User)
deriving DecidableEq, Repr

/-- Outcome of one shard's `shard.Query(query)` in `listAllUsers`
(line 126): the query itself may fail, otherwise it yields a list of
rows, each of which may fail to scan. -/
inductive ShardQuery where
  | qerr (msg : String)
  | qok (rows : List RowScan)
deriving DecidableEq, Repr

/-- Server-side log lines emitted by `listAllUsers`: line 128 on a shard
query error, line 136 on a row scan error. Both name the shard index. -/
inductive LogEntry where
  | queryError (shard : Nat) (msg : String)
  | scanError (shard : Nat) (msg : String)
deriving DecidableEq, Repr

/-- The inner loop of `listAllUsers` (lines 133-140): rows that scan
successfully are appended, scan failures are skipped. -/
def scannedRows (rows : List RowScan) : List User :=
  rows.filterMap (fun r =>
    match r with
    | .ok u => some u
    | .scanErr _ => none)

/-- Log lines the inner loop emits for shard `i`: one per scan failure
(line 136). -/
def scanLogs (i : Nat) (rows : List RowScan) : List LogEntry :=
  rows.filterMap (fun r =>
    match r with
    | .scanErr e => some (LogEntry.scanError i e)
    | .ok _ => none)

/-- The shard loop of `listAllUsers` (lines 124-141), starting at shard
position `i`: a shard whose query fails is logged (line 128) and skipped
(`continue`); an answering shard contributes its scannable rows in
order. Returns the accumulated users and the log lines. -/
def gatherLoop (i : Nat) : List ShardQuery → List User × List LogEntry
  | [] => ([], [])
  | ShardQuery.qerr e :: rest =>
      ((gatherLoop (i + 1) rest).1,
        LogEntry.queryError i e :: (gatherLoop (i + 1) rest).2)
  | ShardQuery.qok rows :: rest =>
      (scannedRows rows ++ (gatherLoop (i + 1) rest).1,
        scanLogs i rows ++ (gatherLoop (i + 1) rest).2)

/-- The full `listAllUsers` handler (lines 121-148): run the shard loop
from position 0, then respond 200 with the accumulated users, their
count, and the routing tag — unconditionally (there is no error
response in this handler). Returns the response together with the log
lines emitted. -/
def listAllUsers (shards : List ShardQuery) : Response × List LogEntry :=
  (Response.okList (gatherLoop 0 shards).1 (gatherLoop 0 shards).1.length
      "scatter_gather_across_all_shards",
    (gatherLoop 0 shards).2)

/-- Opaque handle standing for the `*sql.DB` returned by `sql.Open`. -/
structure DB where
  id : Nat
deriving DecidableEq, Repr

/-- The router state: `ShardManager` of `main.go` (lines 22-24), holding
the ordered shard handles. -/
structure ShardManager where
  shards : List DB
deriving DecidableEq, Repr

/-- `NewShardManager` (lines 27-55): open shard 0, open shard 1, ping
shard 0, ping shard 1, in that order, returning the first failure wrapped
in the corresponding message; only when all four steps succeed is a
manager holding both shards returned. `open0`/`open1` are the outcomes
of the two `sql.Open` calls and `ping` the outcome of `Ping` on an
opened handle. -/
def NewShardManager (open0 open1 : Except String DB)
    (ping : DB → Except String Unit) : Except String ShardManager :=
  match open0 with
  | .error e => .error ("failed to connect to shard 0: " ++ e)
  | .ok shard0 =>
    match open1 with
    | .error e => .error ("failed to connect to shard 1: " ++ e)
    | .ok shard1 =>
      match ping shard0 with
      | .error e => .error ("shard 0 ping failed: " ++ e)
      | .ok _ =>
        match ping shard1 with
        | .error e => .error ("shard 1 ping failed: " ++ e)
        | .ok _ => .ok { shards := [shard0, shard1] }

/-- Modelled from the spec: one shard's PostgreSQL `users` table. The
database engine enforcing the constraints is not part of this
repository; `init_db.sql` declares `user_id SERIAL PRIMARY KEY` and
`email ... UNIQUE`, and the spec's §7 taxonomy names duplicate-key
insert failures ConstraintViolation. A shard's table is its list of
stored rows. -/
structure Table where
  rows : List User
deriving DecidableEq, Repr

/-- Modelled from the spec: `INSERT INTO users (user_id, name, email)
VALUES ... RETURNING created_at` against one shard's table, per the
schema of `init_db.sql`. A row whose `user_id` (primary key) or `email`
(unique) is already present violates the constraint: the insert fails
and stores nothing; otherwise the row is stored with the
server-assigned `created_at` timestamp (`now`), which is returned. -/
def insertRow (t : Table) (now : String) (u : User) :
    Except String (Table × String) :=
  if t.rows.any (fun r => r.user_id == u.user_id) then
    Except.error
      "pq: duplicate key value violates unique constraint users_pkey"
  else if t.rows.any (fun r => r.email == u.email) then
    Except.error
      "pq: duplicate key value violates unique constraint users_email_key"
  else
    Except.ok ({ rows := t.rows ++ [{ u with created_at := now }] }, now)

/-- `createUser` run against the modelled shard tables: route by
`user.UserID` (line 103), insert on exactly the routed shard's table
(line 106); on failure respond 500 and leave every table unchanged, on
success respond 201 with the enriched user, only the routed table
gaining the row. -/
def createUserOnTables (tables : List Table) (now : String) (user : User) :
    Option Response × List Table :=
  match getShardForUser tables.length user.user_id with
  | none => (none, tables)
  | some i =>
    match tables[i]? with
    | none => (none, tables)
    | some t =>
      match insertRow t now user with
      | .error e => (some (.internalError e), tables)
      | .ok (tNew, ts) =>
          (some (.created { user with created_at := ts }
              (getShardIndex tables.length user.user_id)
              "application_layer"),
            tables.set i tNew)

/-- Sample row of `init_db.sql` (shard 0, key 2), used as a concrete
fixture. -/
def alice : User :=
  { user_id := 2, name := "Alice Johnson", email := "alice@example.com",
    created_at := "2024-01-01" }

/-- Sample row of `init_db.sql` (shard 1, key 1), used as a concrete
fixture. -/
def frank : User :=
  { user_id := 1, name := "Frank Miller", email := "frank@example.com",
    created_at := "2024-01-01" }

/- ### C1 / C2: the routing function -/

/-- C1 counterexample: the claim says routing is total and in range for
every integer key, including negative keys. At key `-1` with the
configured 2 shards, Go's `%` yields `-1`, which is out of range, and the
slice lookup `sm.shards[-1]` panics. -/
theorem getShard_negative_key_panics :
    getShardIndex 2 (-1) = -1 ∧ getShardForUser 2 (-1) = none := by
  constructor
  · decide
  · decide

/-- C1 (amended): for every non-negative key `k` and positive shard count
`n`, the routing function returns an index with `0 ≤ index < n` and the
shard lookup succeeds (no out-of-range access). For negative keys whose
Go remainder is negative, the lookup panics instead. -/
theorem getShardIndex_in_range (n : Nat) (k : Int) (hn : 0 < n)
    (hk : 0 ≤ k) :
    0 ≤ getShardIndex n k ∧ getShardIndex n k < (n : Int) ∧
      getShardForUser n k = some (getShardIndex n k).toNat := by
  have hnpos : (0 : Int) < (n : Int) := by exact_mod_cast hn
  have h0 : 0 ≤ getShardIndex n k := Int.tmod_nonneg _ hk
  have h1 : getShardIndex n k < (n : Int) := Int.tmod_lt_of_pos _ hnpos
  refine ⟨h0, h1, ?_⟩
  have hcond : 0 ≤ getShardIndex n k ∧ getShardIndex n k < (n : Int) :=
    ⟨h0, h1⟩
  unfold getShardForUser
  rw [if_pos hcond]

/-- C1 witness: the amended statement at `n = 2`, `k = 5`. -/
theorem getShardIndex_in_range_witness :
    0 ≤ getShardIndex 2 5 ∧ getShardIndex 2 5 < (2 : Int) ∧
      getShardForUser 2 5 = some (getShardIndex 2 5).toNat := by
  have h := getShardIndex_in_range 2 5 (by decide) (by decide)
  exact_mod_cast h

/-- C2: for a fixed shard count the routing function is the pure
deterministic function `key mod N` (Go truncated remainder): repeated
calls agree; with `N = 2`, key `2` routes to shard `0` and key `3` routes
to shard `1`. -/
theorem getShardIndex_deterministic (n : Nat) (k : Int) :
    getShardIndex n k = Int.tmod k (n : Int) ∧
      (∀ k', k' = k → getShardIndex n k' = getShardIndex n k) ∧
      getShardIndex 2 2 = 0 ∧ getShardIndex 2 3 = 1 ∧
      getShardForUser 2 2 = some 0 ∧ getShardForUser 2 3 = some 1 := by
  refine ⟨rfl, ?_, by decide, by decide, by decide, by decide⟩
  intro k' hk'
  rw [hk']

/-- C2 witness: the determinism statement applied at `n = 2`, `k = 3`,
with its inner hypothesis discharged at `k' = 3`. -/
theorem getShardIndex_deterministic_witness :
    getShardIndex 2 3 = getShardIndex 2 3 ∧ getShardIndex 2 3 = 1 :=
  ⟨(getShardIndex_deterministic 2 3).2.1 3 rfl,
    (getShardIndex_deterministic 2 3).2.2.2.1⟩

/- ### C5: getUser point lookup -/

/-- C5 counterexample: the claim quantifies over every key. At key `-1`
(reachable as a GET with path parameter `-1`, which `strconv.Atoi`
parses), the routed
index is `-1` and the handler panics on the slice lookup before issuing
any point lookup, so no entity, NotFound, or shard error is returned —
here even against an environment in which every shard would answer. -/
theorem getUser_negative_key_no_lookup :
    atoi "-1" = some (-1) ∧
      getUserCore 2 (-1) (fun _ => RowResult.noRows) = none ∧
      getUser 2 "-1" (fun _ => RowResult.noRows) = none := by
  refine ⟨by decide, by decide, by decide⟩

/-- C5 (amended): for every key whose routed index is in range (all
non-negative keys; negative keys with negative Go remainder panic before
any lookup), `getUser` consults exactly the shard `getShardForUser`
selects — the response depends only on that shard's outcome — and maps
that outcome as the claim states: a row to a 200 response with the
entity, no-rows to 404 NotFound, and any other error to a 500 carrying
the shard's error, unretried. -/
theorem getUser_point_lookup (n : Nat) (k : Int) (env : Nat → RowResult)
    (i : Nat) (hroute : getShardForUser n k = some i) :
    (∀ env' : Nat → RowResult, env' i = env i →
        getUserCore n k env' = getUserCore n k env) ∧
    (∀ u, env i = RowResult.found u →
        getUserCore n k env =
          some (Response.okUser u (getShardIndex n k) "application_layer")) ∧
    (env i = RowResult.noRows →
        getUserCore n k env = some (Response.notFound "User not found")) ∧
    (∀ e, env i = RowResult.err e →
        getUserCore n k env = some (Response.internalError e)) := by
  refine ⟨?_, ?_, ?_, ?_⟩
  · intro env' hagree
    simp only [getUserCore, hroute, hagree]
  · intro u hu
    simp only [getUserCore, hroute, hu]
  · intro hnr
    simp only [getUserCore, hroute, hnr]
  · intro e he
    simp only [getUserCore, hroute, he]

/-- C5 witness: key `3` with two shards routes to shard `1`; with shard 1
answering no-rows the handler returns 404, by the theorem applied there. -/
theorem getUser_point_lookup_witness :
    getUserCore 2 3 (fun _ => RowResult.noRows) =
      some (Response.notFound "User not found") :=
  (getUser_point_lookup 2 3 (fun _ => RowResult.noRows) 1
    (by decide)).2.2.1 rfl

/- ### C6: createUser insert routing -/

/-- C6 counterexample: the claim quantifies over every entity. For an
entity with key `-1` (reachable, since the JSON binder accepts negative
`user_id`), the handler panics on the shard lookup before issuing any
insert and returns neither an enriched entity nor an error — here even
against an environment in which every shard would accept the insert. -/
theorem createUser_negative_key_no_insert :
    createUserCore 2
        { user_id := -1, name := "n", email := "e", created_at := "" }
        (fun _ => InsertResult.ok "2024-01-01") = none := by
  decide

/-- C6 (amended): for every entity whose routed index is in range (all
non-negative keys; negative keys with negative Go remainder panic before
any insert), `createUser` inserts on exactly the shard `getShardForUser`
selects — the response depends only on that shard's outcome — and on
success returns the entity enriched with the server-populated
`created_at`; on that shard's failure it returns a 500 with the error and
no other shard's outcome can affect the response. -/
theorem createUser_insert_routing (n : Nat) (u : User)
    (env : Nat → InsertResult) (i : Nat)
    (hroute : getShardForUser n u.user_id = some i) :
    (∀ env' : Nat → InsertResult, env' i = env i →
        createUserCore n u env' = createUserCore n u env) ∧
    (∀ ts, env i = InsertResult.ok ts →
        createUserCore n u env =
          some (Response.created { u with created_at := ts }
            (getShardIndex n u.user_id) "application_layer")) ∧
    (∀ e, env i = InsertResult.err e →
        createUserCore n u env = some (Response.internalError e)) := by
  refine ⟨?_, ?_, ?_⟩
  · intro env' hagree
    simp only [createUserCore, hroute, hagree]
  · intro ts hts
    simp only [createUserCore, hroute, hts]
  · intro e he
    simp only [createUserCore, hroute, he]

/-- C6 witness: the entity with key `2` routes to shard `0`; with shard 0
returning a timestamp the handler returns 201 with the enriched entity,
by the theorem applied there. -/
theorem createUser_insert_routing_witness :
    createUserCore 2
        { user_id := 2, name := "Alice Johnson",
          email := "alice@example.com", created_at := "" }
        (fun _ => InsertResult.ok "2024-01-01") =
      some (Response.created
        { user_id := 2, name := "Alice Johnson",
          email := "alice@example.com", created_at := "2024-01-01" }
        0 "application_layer") :=
  (createUser_insert_routing 2
    { user_id := 2, name := "Alice Johnson",
      email := "alice@example.com", created_at := "" }
    (fun _ => InsertResult.ok "2024-01-01") 0 (by decide)).2.1
    "2024-01-01" rfl

/- ### C10: invalid key parse -/

/-- C10: if the `userID` path parameter does not parse as a decimal
integer, `getUser` responds 400 `"Invalid user ID"` without computing a
shard index or touching any shard: the response is the same against
every environment and every shard count. -/
theorem getUser_invalid_id (s : String) (h : atoi s = none) :
    (∀ (n : Nat) (env : Nat → RowResult),
        getUser n s env = some (Response.badRequest "Invalid user ID")) ∧
    (∀ (n n' : Nat) (env env' : Nat → RowResult),
        getUser n s env = getUser n' s env') := by
  constructor
  · intro n env
    unfold getUser
    rw [h]
  · intro n n' env env'
    unfold getUser
    rw [h]

/-- C10 witness: `"abc"` does not parse; the handler returns 400 against
an environment in which both shards would answer, by the theorem. -/
theorem getUser_invalid_id_witness :
    getUser 2 "abc" (fun _ => RowResult.noRows) =
      some (Response.badRequest "Invalid user ID") :=
  (getUser_invalid_id "abc" (by decide)).1 2 (fun _ => RowResult.noRows)

/- ### Scatter-gather helper lemmas -/

/-- A shard whose query fails is logged with its index and message. -/
theorem gatherLoop_qerr_logged :
    ∀ (shards : List ShardQuery) (j i : Nat) (e : String),
      shards[j]? = some (ShardQuery.qerr e) →
      LogEntry.queryError (i + j) e ∈ (gatherLoop i shards).2 := by
  intro shards
  induction shards with
  | nil =>
    intro j i e h
    simp at h
  | cons s rest ih =>
    intro j i e h
    cases j with
    | zero =>
      simp only [List.getElem?_cons_zero, Option.some.injEq] at h
      subst h
      simp [gatherLoop]
    | succ j' =>
      simp only [List.getElem?_cons_succ] at h
      have hmem := ih j' (i + 1) e h
      have hidx : i + (j' + 1) = (i + 1) + j' := by omega
      rw [hidx]
      cases s with
      | qerr e2 =>
        simp only [gatherLoop]
        exact List.mem_cons_of_mem _ hmem
      | qok rows =>
        simp only [gatherLoop]
        exact List.mem_append_right _ hmem

/-- The users gathered when shard `j`'s query fails are exactly the users
gathered when shard `j` answers with no rows: a failed shard contributes
nothing, indistinguishably from an empty shard. -/
theorem gatherLoop_users_set :
    ∀ (shards : List ShardQuery) (j i : Nat) (e : String),
      shards[j]? = some (ShardQuery.qerr e) →
      (gatherLoop i shards).1 =
        (gatherLoop i (shards.set j (ShardQuery.qok []))).1 := by
  intro shards
  induction shards with
  | nil =>
    intro j i e h
    simp at h
  | cons s rest ih =>
    intro j i e h
    cases j with
    | zero =>
      simp only [List.getElem?_cons_zero, Option.some.injEq] at h
      subst h
      simp [gatherLoop, scannedRows]
    | succ j' =>
      simp only [List.getElem?_cons_succ] at h
      have hrec := ih j' (i + 1) e h
      cases s with
      | qerr e2 =>
        simp only [List.set_cons_succ, gatherLoop]
        exact hrec
      | qok rows =>
        simp only [List.set_cons_succ, gatherLoop]
        rw [hrec]

/-- If every shard's query fails, no users are gathered. -/
theorem gatherLoop_all_qerr :
    ∀ (shards : List ShardQuery) (i : Nat),
      (∀ s ∈ shards, ∃ e, s = ShardQuery.qerr e) →
      (gatherLoop i shards).1 = [] := by
  intro shards
  induction shards with
  | nil =>
    intro i _
    rfl
  | cons s rest ih =>
    intro i h
    obtain ⟨e, he⟩ := h s (List.mem_cons_self s rest)
    subst he
    simp only [gatherLoop]
    exact ih (i + 1) (fun x hx => h x (List.mem_cons_of_mem _ hx))

/- ### C3: scatter-gather under partial failure -/

/-- C3 counterexample: the claim says the omission of a failed shard is
observable to the caller as a partial-result indicator naming that
shard. With shard 0 down and shard 1 holding one row, the caller-visible
response is literally the same as when shard 0 is healthy but empty — a
plain 200 with the surviving rows and no indicator of any kind. -/
theorem listAllUsers_no_partial_indicator :
    (listAllUsers
        [ShardQuery.qerr "dial tcp: connection refused",
          ShardQuery.qok [RowScan.ok frank]]).1 =
      (listAllUsers
        [ShardQuery.qok [], ShardQuery.qok [RowScan.ok frank]]).1 ∧
    (listAllUsers
        [ShardQuery.qerr "dial tcp: connection refused",
          ShardQuery.qok [RowScan.ok frank]]).1 =
      Response.okList [frank] 1 "scatter_gather_across_all_shards" := by
  exact ⟨rfl, rfl⟩

/-- C3 (amended): if shard `i`'s query fails, `listAllUsers` does not
fail as a whole: it still responds 200 with all rows of the remaining
shards and their count, and the failure is logged server-side naming
shard `i` — but the caller-visible response carries no partial-result
indicator: it equals the response of the same configuration with shard
`i` merely empty. -/
theorem listAllUsers_partial_failure (shards : List ShardQuery) (i : Nat)
    (e : String) (h : shards[i]? = some (ShardQuery.qerr e)) :
    (listAllUsers shards).1.status = 200 ∧
    LogEntry.queryError i e ∈ (listAllUsers shards).2 ∧
    (listAllUsers shards).1 =
      (listAllUsers (shards.set i (ShardQuery.qok []))).1 := by
  refine ⟨rfl, ?_, ?_⟩
  · have hmem := gatherLoop_qerr_logged shards i 0 e h
    simpa using hmem
  · have husers := gatherLoop_users_set shards i 0 e h
    unfold listAllUsers
    rw [husers]

/-- C3 witness: shard 0 down, shard 1 holding Frank's row. -/
theorem listAllUsers_partial_failure_witness :
    (listAllUsers
        [ShardQuery.qerr "dial tcp: connection refused",
          ShardQuery.qok [RowScan.ok frank]]).1.status = 200 ∧
    LogEntry.queryError 0 "dial tcp: connection refused" ∈
      (listAllUsers
        [ShardQuery.qerr "dial tcp: connection refused",
          ShardQuery.qok [RowScan.ok frank]]).2 :=
  ⟨(listAllUsers_partial_failure
      [ShardQuery.qerr "dial tcp: connection refused",
        ShardQuery.qok [RowScan.ok frank]]
      0 "dial tcp: connection refused" (by decide)).1,
    (listAllUsers_partial_failure
      [ShardQuery.qerr "dial tcp: connection refused",
        ShardQuery.qok [RowScan.ok frank]]
      0 "dial tcp: connection refused" (by decide)).2.1⟩

/- ### C4: scatter-gather with every shard down -/

/-- C4 counterexample: the claim says that when every shard's query
fails, the operation fails with an aggregate error rather than returning
an empty success. With both shards down, `listAllUsers` responds 200
with an empty list and count 0 — an empty success, identical to the
response over two healthy empty shards. -/
theorem listAllUsers_all_fail_empty_success :
    (listAllUsers
        [ShardQuery.qerr "dial tcp: connection refused",
          ShardQuery.qerr "dial tcp: connection refused"]).1 =
      Response.okList [] 0 "scatter_gather_across_all_shards" ∧
    (listAllUsers
        [ShardQuery.qerr "dial tcp: connection refused",
          ShardQuery.qerr "dial tcp: connection refused"]).1 =
      (listAllUsers [ShardQuery.qok [], ShardQuery.qok []]).1 ∧
    (listAllUsers
        [ShardQuery.qerr "dial tcp: connection refused",
          ShardQuery.qerr "dial tcp: connection refused"]).1.status
      = 200 := by
  exact ⟨rfl, rfl, rfl⟩

/-- C4 (amended): if every shard's query fails, `listAllUsers` still
succeeds: it responds 200 with an empty user list and count 0; no
aggregate error is produced (the handler has no error response at
all). -/
theorem listAllUsers_all_fail (shards : List ShardQuery)
    (h : ∀ s ∈ shards, ∃ e, s = ShardQuery.qerr e) :
    (listAllUsers shards).1 =
      Response.okList [] 0 "scatter_gather_across_all_shards" := by
  unfold listAllUsers
  rw [gatherLoop_all_qerr shards 0 h]
  rfl

/-- C4 witness: both shards down. -/
theorem listAllUsers_all_fail_witness :
    (listAllUsers [ShardQuery.qerr "x", ShardQuery.qerr "y"]).1 =
      Response.okList [] 0 "scatter_gather_across_all_shards" :=
  listAllUsers_all_fail [ShardQuery.qerr "x", ShardQuery.qerr "y"]
    (by
      intro s hs
      simp only [List.mem_cons, List.not_mem_nil, or_false] at hs
      rcases hs with h | h
      · exact ⟨"x", h⟩
      · exact ⟨"y", h⟩)

/- ### C7: all-or-nothing initialization -/

/-- C7: `NewShardManager` is all-or-nothing: a manager is produced only
when both `sql.Open` calls and both pings succeed, and it holds exactly
the two opened, ping-checked shards; if any single step fails, the
constructor returns an error and no manager. -/
theorem NewShardManager_all_or_nothing (open0 open1 : Except String DB)
    (ping : DB → Except String Unit) :
    (∀ sm, NewShardManager open0 open1 ping = Except.ok sm →
        ∃ s0 s1, open0 = Except.ok s0 ∧ open1 = Except.ok s1 ∧
          ping s0 = Except.ok () ∧ ping s1 = Except.ok () ∧
          sm.shards = [s0, s1]) ∧
    ((∃ e, open0 = Except.error e) ∨ (∃ e, open1 = Except.error e) ∨
        (∃ s0 e, open0 = Except.ok s0 ∧ ping s0 = Except.error e) ∨
        (∃ s1 e, open1 = Except.ok s1 ∧ ping s1 = Except.error e) →
      ∃ e, NewShardManager open0 open1 ping = Except.error e) := by
  constructor
  · intro sm hsm
    cases open0 with
    | error e => simp [NewShardManager] at hsm
    | ok s0 =>
      cases open1 with
      | error e => simp [NewShardManager] at hsm
      | ok s1 =>
        cases hp0 : ping s0 with
        | error e => simp [NewShardManager, hp0] at hsm
        | ok u0 =>
          cases hp1 : ping s1 with
          | error e => simp [NewShardManager, hp0, hp1] at hsm
          | ok u1 =>
            simp only [NewShardManager, hp0, hp1] at hsm
            refine ⟨s0, s1, rfl, rfl, by rw [hp0], by rw [hp1], ?_⟩
            cases hsm
            rfl
  · rintro (⟨e, he⟩ | ⟨e, he⟩ | ⟨s0, e, hs0, he⟩ | ⟨s1, e, hs1, he⟩)
    · subst he
      exact ⟨_, rfl⟩
    · subst he
      cases open0 with
      | error e0 => exact ⟨_, rfl⟩
      | ok s0 => exact ⟨_, rfl⟩
    · subst hs0
      cases open1 with
      | error e1 => exact ⟨_, rfl⟩
      | ok s1 =>
        exact ⟨"shard 0 ping failed: " ++ e,
          by simp [NewShardManager, he]⟩
    · subst hs1
      cases open0 with
      | error e0 => exact ⟨_, rfl⟩
      | ok s0 =>
        cases hp0 : ping s0 with
        | error e0 =>
          exact ⟨"shard 0 ping failed: " ++ e0,
            by simp [NewShardManager, hp0]⟩
        | ok u0 =>
          exact ⟨"shard 1 ping failed: " ++ e,
            by simp [NewShardManager, hp0, he]⟩

/-- C7 witness: shard 0 failing to open makes initialization fail even
though shard 1 would open and every ping would succeed. -/
theorem NewShardManager_all_or_nothing_witness :
    ∃ e, NewShardManager (Except.error "no such host")
        (Except.ok { id := 1 }) (fun _ => Except.ok ())
      = Except.error e :=
  (NewShardManager_all_or_nothing (Except.error "no such host")
      (Except.ok { id := 1 }) (fun _ => Except.ok ())).2
    (Or.inl ⟨"no such host", rfl⟩)

/- ### C8: duplicate key insert -/

/-- C8: inserting an entity whose key already exists on its owning shard
fails with the constraint-violation error (surfaced as the handler's 500)
and leaves every shard's stored rows — in particular the original record
for that key — exactly unchanged: no overwrite, no partial update. -/
theorem createUser_duplicate_key (tables : List Table) (now : String)
    (u : User) (i : Nat) (t : Table)
    (hroute : getShardForUser tables.length u.user_id = some i)
    (ht : tables[i]? = some t)
    (hdup : t.rows.any (fun r => r.user_id == u.user_id) = true) :
    (createUserOnTables tables now u).1 =
      some (Response.internalError
        "pq: duplicate key value violates unique constraint users_pkey") ∧
    (createUserOnTables tables now u).2 = tables := by
  constructor <;>
    simp [createUserOnTables, hroute, ht, insertRow, hdup]

/-- C8 witness: shard 0 already stores Alice (key 2); inserting another
entity with key 2 fails and both tables are unchanged. -/
theorem createUser_duplicate_key_witness :
    (createUserOnTables [{ rows := [alice] }, { rows := [] }] "2024-02-02"
        { user_id := 2, name := "Mallory", email := "m@example.com",
          created_at := "" }).1 =
      some (Response.internalError
        "pq: duplicate key value violates unique constraint users_pkey") ∧
    (createUserOnTables [{ rows := [alice] }, { rows := [] }] "2024-02-02"
        { user_id := 2, name := "Mallory", email := "m@example.com",
          created_at := "" }).2 =
      [{ rows := [alice] }, { rows := [] }] :=
  createUser_duplicate_key [{ rows := [alice] }, { rows := [] }]
    "2024-02-02"
    { user_id := 2, name := "Mallory", email := "m@example.com",
      created_at := "" }
    0 { rows := [alice] } (by decide) (by decide) (by decide)

/- ### C9: failure surfacing across the three operations -/

/-- C9 counterexample: the claim says every request-time failure reaches
the caller as an error identifying the shard(s) involved and that no
failure becomes a success. But the 500 produced for a shard error
carries only the raw error text: a shard-0 failure (key 2) and a
shard-1 failure (key 3) with the same driver message produce literally
identical caller-visible responses, so the response cannot identify the
shard; and a scatter-gather in which every shard failed is returned as
a 200 success. -/
theorem error_response_no_shard_identity :
    getUserCore 2 2 (fun _ => RowResult.err "connection refused") =
      some (Response.internalError "connection refused") ∧
    getUserCore 2 3 (fun _ => RowResult.err "connection refused") =
      some (Response.internalError "connection refused") ∧
    getUserCore 2 2 (fun _ => RowResult.err "connection refused") =
      getUserCore 2 3 (fun _ => RowResult.err "connection refused") ∧
    (listAllUsers [ShardQuery.qerr "connection refused",
        ShardQuery.qerr "connection refused"]).1.status = 200 := by
  exact ⟨rfl, rfl, rfl, rfl⟩

/-- C9 (amended): request-time failures are surfaced but untagged:
`getUser` and `createUser` turn the routed shard's failure into a 500
whose body is exactly the underlying error message, with no shard
index; a failed shard in `listAllUsers` is logged server-side naming
its index while the caller receives a 200 success response. -/
theorem request_time_failure_surfacing :
    (∀ (n : Nat) (k : Int) (i : Nat) (env : Nat → RowResult) (e : String),
        getShardForUser n k = some i → env i = RowResult.err e →
        getUserCore n k env = some (Response.internalError e)) ∧
    (∀ (n : Nat) (u : User) (i : Nat) (env : Nat → InsertResult)
        (e : String),
        getShardForUser n u.user_id = some i → env i = InsertResult.err e →
        createUserCore n u env = some (Response.internalError e)) ∧
    (∀ (shards : List ShardQuery) (i : Nat) (e : String),
        shards[i]? = some (ShardQuery.qerr e) →
        (listAllUsers shards).1.status = 200 ∧
        LogEntry.queryError i e ∈ (listAllUsers shards).2) := by
  refine ⟨?_, ?_, ?_⟩
  · intro n k i env e hroute henv
    simp only [getUserCore, hroute, henv]
  · intro n u i env e hroute henv
    simp only [createUserCore, hroute, henv]
  · intro shards i e h
    refine ⟨rfl, ?_⟩
    have hmem := gatherLoop_qerr_logged shards i 0 e h
    simpa using hmem

/-- C9 witness: key 3 routes to shard 1; a shard-1 failure surfaces as a
500 carrying the driver's message, by the theorem applied there. -/
theorem request_time_failure_surfacing_witness :
    getUserCore 2 3 (fun _ => RowResult.err "timeout") =
      some (Response.internalError "timeout") :=
  request_time_failure_surfacing.1 2 3 1 (fun _ => RowResult.err "timeout")
    "timeout" (by decide) rfl

end ShardingPOC
